import Mathlib

/-!
Shallow embedding of the data-transformation core of the ML_Project
repository (`src/components/data_transformation.py`, `src/exception.py`,
`src/logger.py`) and proofs about it.

Modelling conventions:
* `float` values are modelled by exact rationals `ℚ`; a missing value
  (`NaN` in a pandas column) is `Option.none`.
* The floating-point square root used by sklearn's `StandardScaler`
  (`scale_ = sqrt(var_)`) is an explicit parameter `sq : ℚ → ℚ` of every
  definition that needs it; concrete instantiations in witnesses pick a
  function that agrees with the real square root on every value the run
  applies it to.
* Matrices are represented column-major (a list of columns, each a list of
  the values down the rows); the claims proved below (output equality,
  column counts, per-column statistics) are insensitive to this choice.
* `pd.read_csv` is abstracted away: the orchestration function receives the
  two loaded tables directly.
-/

attribute [local semireducible] Rat.add Rat.mul Rat.inv Rat.sub Rat.ofScientific

/-! ### Elementary list statistics (numpy/sklearn semantics) -/

/-- Arithmetic mean of a list of rationals (`np.mean`); division by zero for
the empty list yields `0` by the `ℚ` convention — every use below is guarded
by nonemptiness. -/
def listMean (l : List ℚ) : ℚ := l.sum / l.length

/-- Population variance (`np.var`, `ddof=0`), as computed by
`StandardScaler.fit` for `var_`. -/
def listVar (l : List ℚ) : ℚ := (l.map (fun x => (x - listMean l) ^ 2)).sum / l.length

/-- Insert a rational into a sorted list (ascending). -/
def insertSortedQ (x : ℚ) : List ℚ → List ℚ
  | [] => [x]
  | y :: ys => if x ≤ y then x :: y :: ys else y :: insertSortedQ x ys

/-- Insertion sort for rationals, ascending (the sort underlying `np.median`). -/
def sortQ : List ℚ → List ℚ
  | [] => []
  | x :: xs => insertSortedQ x (sortQ xs)

/-- Median as computed by `np.median` / `SimpleImputer(strategy="median")`:
sort, take the middle element (odd length) or the average of the two middle
elements (even length).  The empty list is given the junk value `0`; sklearn
instead drops an all-missing column, a case outside the modelled domain and
excluded by the hypotheses of every theorem that could reach it. -/
def median (l : List ℚ) : ℚ :=
  let s := sortQ l
  let n := s.length
  if n = 0 then 0
  else if n % 2 = 1 then s.getD (n / 2) 0
  else (s.getD (n / 2 - 1) 0 + s.getD (n / 2) 0) / 2

/-- Code-point comparison of characters (the comparison numpy uses on
fixed-width unicode strings). -/
def charLtB (c d : Char) : Bool := c.val.toNat < d.val.toNat

/-- Strict lexicographic comparison of strings by code points. -/
def strLtChars : List Char → List Char → Bool
  | [], [] => false
  | [], _ :: _ => true
  | _ :: _, [] => false
  | c :: cs, d :: ds => charLtB c d || (c = d && strLtChars cs ds)

/-- Non-strict lexicographic comparison of strings. -/
def strLeB (s t : String) : Bool := s = t || strLtChars s.data t.data

/-- Insert a string into a lexicographically sorted list. -/
def insertSortedStr (x : String) : List String → List String
  | [] => [x]
  | y :: ys => if strLeB x y then x :: y :: ys else y :: insertSortedStr x ys

/-- Insertion sort for strings, ascending. -/
def sortStr : List String → List String
  | [] => []
  | x :: xs => insertSortedStr x (sortStr xs)

/-- Sorted list of the distinct values of a list of strings: the semantics of
`np.unique`, which fixes `OneHotEncoder.categories_`. -/
def sortedUniqueStr (l : List String) : List String := sortStr l.dedup

/-- Most frequent value of a list of strings, ties broken towards the
smallest value — the semantics of `SimpleImputer(strategy="most_frequent")`
(`np.unique` returns sorted values, `argmax` takes the first maximal count).
The empty list gets the junk value `""`; sklearn instead drops an all-missing
column, a case outside the modelled domain. -/
def mostFrequent (l : List String) : String :=
  (sortedUniqueStr l).foldl (fun best c => if l.count best < l.count c then c else best) ""

/-- sklearn's `_handle_zeros_in_scale`: a zero scale factor is replaced by 1
so that constant columns are mapped to zero rather than dividing by zero. -/
def handle_zeros_in_scale (s : ℚ) : ℚ := if s = 0 then 1 else s

/-! ### Tables (pandas DataFrames) and Python-level errors -/

/-- One column of a loaded table: numeric (float with possible NaN) or
categorical (string with possible NaN). -/
inductive ColData where
  | num (vals : List (Option ℚ))
  | cat (vals : List (Option String))
deriving DecidableEq

/-- A loaded table: named columns in order.  Lookups take the first column
with a given name, as pandas indexing does for unique labels. -/
structure DataFrame where
  cols : List (String × ColData)
deriving DecidableEq

/-- Errors raised by the Python libraries during the transformation. -/
inductive PyError where
  | keyError (key : String)
  | valueError (msg : String)
deriving DecidableEq

/-- First column with the given name, if any. -/
def DataFrame.findCol (df : DataFrame) (name : String) : Option ColData :=
  (df.cols.find? (fun p => p.1 == name)).map (fun p => p.2)

/-- Whether the table has a column with the given name. -/
def DataFrame.hasCol (df : DataFrame) (name : String) : Bool :=
  (df.findCol name).isSome

/-- The feature table `df.drop(columns=[name])` produces on success: every
column labelled `name` removed, the rest kept in order. -/
def input_features (df : DataFrame) (name : String) : DataFrame :=
  ⟨df.cols.filter (fun p => !(p.1 == name))⟩

/-- `df.drop(columns=[name])`: removes every column labelled `name`, raising
`KeyError` when the label is absent (pandas' behaviour with the default
`errors="raise"`). -/
def dropColumn (df : DataFrame) (name : String) : Except PyError DataFrame :=
  if df.hasCol name then .ok (input_features df name)
  else .error (.keyError name)

/-- `df[name]` for a numeric column: raises `KeyError` when absent.  A
non-numeric target is outside the modelled domain (`np.c_` would coerce the
whole matrix to strings) and is modelled as a `ValueError`. -/
def getNumColumn (df : DataFrame) (name : String) : Except PyError (List (Option ℚ)) :=
  match df.findCol name with
  | none => .error (.keyError name)
  | some (.num vals) => .ok vals
  | some (.cat _) => .error (.valueError (name ++ " is not numeric"))

/-- Column lookup performed by `ColumnTransformer` for a column routed to the
numeric sub-pipeline: a missing column is a `ValueError` (sklearn's
"columns are missing" error); a string column under median imputation is the
`ValueError` sklearn raises when casting to float fails. -/
def getNumFeature (df : DataFrame) (name : String) : Except PyError (List (Option ℚ)) :=
  match df.findCol name with
  | none => .error (.valueError ("columns are missing: " ++ name))
  | some (.num vals) => .ok vals
  | some (.cat _) => .error (.valueError ("could not convert string to float: " ++ name))

/-- Column lookup performed by `ColumnTransformer` for a column routed to the
categorical sub-pipeline.  A numeric column routed here is outside the
modelled domain (sklearn would happily one-hot encode the numbers) and is
modelled as a `ValueError`; no theorem below depends on that corner. -/
def getCatFeature (df : DataFrame) (name : String) : Except PyError (List (Option String)) :=
  match df.findCol name with
  | none => .error (.valueError ("columns are missing: " ++ name))
  | some (.cat vals) => .ok vals
  | some (.num _) => .error (.valueError ("non-string column routed to the categorical pipeline: " ++ name))

/-- Total numeric lookup used only on the right-hand side of theorems whose
premises guarantee the column exists and is numeric. -/
def numColOf (df : DataFrame) (name : String) : List (Option ℚ) :=
  match df.findCol name with
  | some (.num vals) => vals
  | _ => []

/-- Total categorical lookup used only on the right-hand side of theorems
whose premises guarantee the column exists and is categorical. -/
def catColOf (df : DataFrame) (name : String) : List (Option String) :=
  match df.findCol name with
  | some (.cat vals) => vals
  | _ => []

/-- Error-propagating map over a list, modelling sklearn's loop over the
transformers of a `ColumnTransformer`: the first failure aborts the whole
operation. -/
def exceptMapM {α β : Type} (f : α → Except PyError β) : List α → Except PyError (List β)
  | [] => .ok []
  | a :: l =>
    match f a with
    | .error e => .error e
    | .ok b =>
      match exceptMapM f l with
      | .error e => .error e
      | .ok bs => .ok (b :: bs)

/-! ### The two sub-pipelines of `get_data_transformer_object`
(`data_transformation.py` lines 51-68) -/

/-- Fitted state of `num_pipeline = Pipeline([("imputer", SimpleImputer(strategy="median")),
("scaler", StandardScaler())])`: the imputer statistic and the scaler's
`mean_`, `var_` and `scale_`. -/
structure NumPipelineFit where
  statistic : ℚ
  mean : ℚ
  var : ℚ
  scale : ℚ
deriving DecidableEq

/-- `SimpleImputer(strategy="median").fit`: the statistic is the median of
the non-missing values. -/
def imputeMedianFit (vals : List (Option ℚ)) : ℚ := median (vals.filterMap id)

/-- `SimpleImputer.transform` for a numeric column: replace missing values by
the fitted statistic. -/
def imputeVals (stat : ℚ) (vals : List (Option ℚ)) : List ℚ :=
  vals.map (fun v => v.getD stat)

/-- Fit of the numeric sub-pipeline on one column: the imputer is fitted on
the raw column, the scaler on the imputed column (sklearn `Pipeline.fit`
feeds each step the `fit_transform` of the previous one). -/
def num_pipeline_fit (sq : ℚ → ℚ) (vals : List (Option ℚ)) : NumPipelineFit :=
  let stat := imputeMedianFit vals
  let imputed := imputeVals stat vals
  ⟨stat, listMean imputed, listVar imputed,
    handle_zeros_in_scale (sq (listVar imputed))⟩

/-- Transform of the numeric sub-pipeline: impute with the fitted statistic,
then `StandardScaler.transform` — subtract `mean_`, divide by `scale_`. -/
def num_pipeline_transform (f : NumPipelineFit) (vals : List (Option ℚ)) : List ℚ :=
  (imputeVals f.statistic vals).map (fun x => (x - f.mean) / f.scale)

/-- Fitted state of `cat_pipeline = Pipeline([("imputer", SimpleImputer(strategy="most_frequent")),
("one_hot_encoder", OneHotEncoder()), ("scaler", StandardScaler(with_mean=False))])`:
the imputer statistic, the encoder's `categories_` (sorted distinct levels)
and the scaler's per-indicator-column `scale_`. -/
structure CatPipelineFit where
  statistic : String
  categories : List String
  scales : List ℚ
deriving DecidableEq

/-- `SimpleImputer(strategy="most_frequent").fit` statistic. -/
def imputeMostFrequentFit (vals : List (Option String)) : String :=
  mostFrequent (vals.filterMap id)

/-- `SimpleImputer.transform` for a categorical column. -/
def imputeCatVals (stat : String) (vals : List (Option String)) : List String :=
  vals.map (fun v => v.getD stat)

/-- The one-hot indicator column of category `c` over an imputed column. -/
def oneHotColumn (imputed : List String) (c : String) : List ℚ :=
  imputed.map (fun v => if v = c then 1 else 0)

/-- Fit of the categorical sub-pipeline on one column: most-frequent imputer,
then `OneHotEncoder.fit` (categories are the sorted distinct imputed values),
then `StandardScaler(with_mean=False).fit` on each indicator column. -/
def cat_pipeline_fit (sq : ℚ → ℚ) (vals : List (Option String)) : CatPipelineFit :=
  let stat := imputeMostFrequentFit vals
  let imputed := imputeCatVals stat vals
  let cats := sortedUniqueStr imputed
  ⟨stat, cats,
    cats.map (fun c => handle_zeros_in_scale (sq (listVar (oneHotColumn imputed c))))⟩

/-- The (column-major) output block the categorical sub-pipeline produces
when every level is known: per fitted level, in order, the imputed column's
indicator divided by that level's fitted scale. -/
def cat_pipeline_output (f : CatPipelineFit) (vals : List (Option String)) :
    List (List ℚ) :=
  (f.categories.zip f.scales).map
    (fun p => (oneHotColumn (imputeCatVals f.statistic vals) p.1).map (fun x => x / p.2))

/-- Transform of the categorical sub-pipeline: impute with the fitted
statistic, then one-hot encode against the fitted category set — a value
outside the fitted categories raises (`OneHotEncoder()` is constructed with
its default `handle_unknown='error'`) — then divide each indicator column by
its fitted scale (`with_mean=False`: nothing is subtracted). -/
def cat_pipeline_transform (f : CatPipelineFit) (vals : List (Option String)) :
    Except PyError (List (List ℚ)) :=
  if (imputeCatVals f.statistic vals).all (fun v => f.categories.contains v) then
    .ok (cat_pipeline_output f vals)
  else .error (.valueError "Found unknown categories during transform")

/-! ### The `ColumnTransformer` built by `get_data_transformer_object`
(`data_transformation.py` lines 36-80) -/

/-- The hard-coded numeric column list (line 37). -/
def numerical_columns : List String := ["writing_score", "reading_score"]

/-- The hard-coded categorical column list (lines 40-46). -/
def categorical_columns : List String :=
  ["gender", "race_ethnicity", "parental_level_of_education", "lunch",
   "test_preparation_course"]

/-- The target column (line 103). -/
def target_column_name : String := "math_score"

/-- Fitted state of the whole `ColumnTransformer`: per listed numeric column
and per listed categorical column, the fitted sub-pipeline, in the listed
order. -/
structure FittedPreprocessor where
  numFits : List (String × NumPipelineFit)
  catFits : List (String × CatPipelineFit)
deriving DecidableEq

/-- `preprocessor.fit`: fit the numeric sub-pipeline on every listed numeric
column and the categorical sub-pipeline on every listed categorical column,
reading the columns from the given table only. -/
def preprocessor_fit (sq : ℚ → ℚ) (df : DataFrame) : Except PyError FittedPreprocessor :=
  match exceptMapM (fun c =>
      match getNumFeature df c with
      | .error e => .error e
      | .ok v => .ok (c, num_pipeline_fit sq v)) numerical_columns with
  | .error e => .error e
  | .ok nf =>
    match exceptMapM (fun c =>
        match getCatFeature df c with
        | .error e => .error e
        | .ok v => .ok (c, cat_pipeline_fit sq v)) categorical_columns with
    | .error e => .error e
    | .ok cf => .ok ⟨nf, cf⟩

/-- `preprocessor.transform`: transformed numeric columns first, then the
one-hot blocks of the categorical columns, in the fitted order — the
column-major feature matrix.  Any input column not reached by a lookup is
dropped (the `ColumnTransformer` default `remainder='drop'`). -/
def preprocessor_transform (f : FittedPreprocessor) (df : DataFrame) :
    Except PyError (List (List ℚ)) :=
  match exceptMapM (fun p =>
      match getNumFeature df p.1 with
      | .error e => .error e
      | .ok v => .ok (num_pipeline_transform p.2 v)) f.numFits with
  | .error e => .error e
  | .ok numCols =>
    match exceptMapM (fun p =>
        match getCatFeature df p.1 with
        | .error e => .error e
        | .ok v => cat_pipeline_transform p.2 v) f.catFits with
    | .error e => .error e
    | .ok catGroups => .ok (numCols ++ catGroups.flatten)

/-- `preprocessor.fit_transform(df)` — for these transformers, `fit` followed
by `transform` on the same table. -/
def preprocessor_fit_transform (sq : ℚ → ℚ) (df : DataFrame) :
    Except PyError (FittedPreprocessor × List (List ℚ)) :=
  match preprocessor_fit sq df with
  | .error e => .error e
  | .ok f =>
    match preprocessor_transform f df with
    | .error e => .error e
    | .ok m => .ok (f, m)

/-! ### The exception wrapper (`src/exception.py`) -/

/-- The part of a Python traceback read by `error_message_detail`:
`exc_tb.tb_frame.f_code.co_filename` and `exc_tb.tb_lineno`. -/
structure Traceback where
  fileName : String
  lineNumber : Nat
deriving DecidableEq

/-- The detailed message format of `error_message_detail` (lines 32-35 of
`exception.py`), for a traceback that is present. -/
def error_message_of (error : String) (tb : Traceback) : String :=
  "Error occurred in python script name [" ++ tb.fileName ++ "] line number ["
    ++ toString tb.lineNumber ++ "] error message [" ++ error ++ "]"

/-- `error_message_detail(error, sys)`: reads `sys.exc_info()`'s traceback.
Outside an active `except` block the traceback is `None` and the attribute
access `exc_tb.tb_frame` itself raises `AttributeError`; inside, the
formatted message is produced. -/
def error_message_detail (error : String) (excInfoTb : Option Traceback) :
    Except String String :=
  match excInfoTb with
  | none => .error "AttributeError: NoneType object has no attribute tb_frame"
  | some tb => .ok (error_message_of error tb)

/-- The state of a constructed `CustomException` object: the stored detailed
message, and the arguments the base `Exception.__init__` was called with
(none — the `super().__init__` call is commented out in the source). -/
structure CustomExceptionObj where
  error_message : String
  base_args : List String
deriving DecidableEq

/-- `CustomException.__str__`. -/
def customExceptionStr (e : CustomExceptionObj) : String := e.error_message

/-- `CustomException.__init__(error_message, error_detail)`: builds the
detailed message from the currently handled exception's traceback (failing
when there is none) and prints it to stdout, framed by `+` runs, as a side
effect; the second component of the result is the list of lines printed. -/
def customExceptionInit (msg : String) (excInfoTb : Option Traceback) :
    Except String (CustomExceptionObj × List String) :=
  match error_message_detail msg excInfoTb with
  | .error e => .error e
  | .ok m => .ok (⟨m, []⟩, ["\n\n+++++++++++++++++++++ " ++ m ++ " \n\n+++++++++++++++++++++"])

/-- The `str()` rendering of the modelled Python errors, as embedded into the
wrapped message. -/
def pyErrorStr : PyError → String
  | .keyError k => "['" ++ k ++ "'] not found in axis"
  | .valueError m => m

/-! ### `initiate_data_transformation` (`data_transformation.py` lines 89-164) -/

/-- `DataTransformationConfig.preprocessor_obj_file_path` (line 21). -/
def preprocessor_obj_file_path : String := "artifacts/preprocessor.pkl"

/-- The `co_filename` of the frame in which `initiate_data_transformation`'s
`except` clause captures the traceback. -/
def data_transformation_file : String := "src/components/data_transformation.py"

/-- The value returned by a successful `initiate_data_transformation`, plus
the fitted preprocessor it persisted. -/
structure TransformOutput where
  train_arr : List (List (Option ℚ))
  test_arr : List (List (Option ℚ))
  obj_file_path : String
  saved_preprocessor : FittedPreprocessor
deriving DecidableEq

/-- `np.c_[features, np.array(target)]` in column-major form: the transformed
feature columns (all values present after imputation) followed by the target
column appended last. -/
def attachTarget (m : List (List ℚ)) (target : List (Option ℚ)) :
    List (List (Option ℚ)) :=
  m.map (fun c => c.map some) ++ [target]

/-- The body of the `try` block of `initiate_data_transformation`, with each
failure tagged by the source line at which the raised exception enters the
function's frame (the `tb_lineno` that `CustomException` will capture). -/
def initiate_core (sq : ℚ → ℚ) (train_df test_df : DataFrame) :
    Except (Nat × PyError) TransformOutput :=
  match dropColumn train_df target_column_name with
  | .error e => .error (108, e)
  | .ok input_feature_train_df =>
    match getNumColumn train_df target_column_name with
    | .error e => .error (109, e)
    | .ok target_feature_train =>
      match dropColumn test_df target_column_name with
      | .error e => .error (112, e)
      | .ok input_feature_test_df =>
        match getNumColumn test_df target_column_name with
        | .error e => .error (113, e)
        | .ok target_feature_test =>
          match preprocessor_fit_transform sq input_feature_train_df with
          | .error e => .error (119, e)
          | .ok (fitted, input_feature_train_arr) =>
            match preprocessor_transform fitted input_feature_test_df with
            | .error e => .error (128, e)
            | .ok input_feature_test_arr =>
              .ok ⟨attachTarget input_feature_train_arr target_feature_train,
                   attachTarget input_feature_test_arr target_feature_test,
                   preprocessor_obj_file_path, fitted⟩

/-- `initiate_data_transformation(train_path, test_path)` with the two loaded
tables abstracted in: on success, the two combined arrays and the artifact
path; on failure, the `CustomException` raised by the `except` clause
(lines 162-164), carrying the formatted origin/cause message. -/
def initiate_data_transformation (sq : ℚ → ℚ) (train_df test_df : DataFrame) :
    Except CustomExceptionObj TransformOutput :=
  match initiate_core sq train_df test_df with
  | .ok o => .ok o
  | .error (line, e) =>
    .error ⟨error_message_of (pyErrorStr e) ⟨data_transformation_file, line⟩, []⟩

/-- The file writes performed by one call of `initiate_data_transformation`:
`save_object` (line 151) runs after every fallible step, so exactly the
successful calls write the fitted preprocessor to the configured path. -/
def initiate_data_transformation_writes (sq : ℚ → ℚ) (train_df test_df : DataFrame) :
    List (String × FittedPreprocessor) :=
  match initiate_core sq train_df test_df with
  | .ok o => [(o.obj_file_path, o.saved_preprocessor)]
  | .error _ => []

/-! ### The logger module (`src/logger.py`), as a pure description of the
side effects its import performs, parameterized by the working directory and
the timestamp string `datetime.now().strftime('%m_%d_%Y_%H_%M_%S')`. -/

/-- `LOG_FILE` (line 12). -/
def LOG_FILE (timestamp : String) : String := timestamp ++ ".log"

/-- `logs_path = os.path.join(os.getcwd(), "logs", LOG_FILE)` (line 16);
`os.path.join` of relative components is modelled by `/`-concatenation. -/
def logs_path (cwd timestamp : String) : String :=
  cwd ++ "/logs/" ++ LOG_FILE timestamp

/-- `LOG_FILE_PATH = os.path.join(logs_path, LOG_FILE)` (line 23). -/
def LOG_FILE_PATH (cwd timestamp : String) : String :=
  logs_path cwd timestamp ++ "/" ++ LOG_FILE timestamp

/-- The filesystem side effects of importing `src.logger`: the directory
created by `os.makedirs(logs_path)` (line 20) and the file
`logging.basicConfig` is pointed at (line 30). -/
structure LoggerSideEffects where
  createdDirectory : String
  configuredLogFile : String
deriving DecidableEq

/-- Importing the logger module unconditionally performs these two effects. -/
def logger_import_effects (cwd timestamp : String) : LoggerSideEffects :=
  ⟨logs_path cwd timestamp, LOG_FILE_PATH cwd timestamp⟩

/-! ### Spec-side definitions for the refinement claim about the pipeline
composition.  These are written from the specification's words (§2 bullet 1,
§4.1 and the glossary), not from the code, and are compared with the
code-side pipelines in the corresponding theorem.  The spec leaves the order
of the observed level set to the implementation; the sorted order is used
here, matching the code-side choice being verified. -/

/-- Spec wording: "impute-missing-with-median" — fill each missing value with
the median of the non-missing values of the column. -/
def spec_impute_median (col : List (Option ℚ)) : List ℚ :=
  col.map (fun v => v.getD (median (col.filterMap id)))

/-- Spec wording: "standardize-to-zero-mean-unit-variance" — subtract the
column mean and divide by the standard deviation, with the §4.1 edge case
that a zero standard deviation produces the all-zero output (division by 1). -/
def spec_standardize (sq : ℚ → ℚ) (col : List ℚ) : List ℚ :=
  let m := listMean col
  let s := sq (listVar col)
  col.map (fun x => (x - m) / (if s = 0 then 1 else s))

/-- Spec routing for a numeric column: median imputation, then
standardization. -/
def spec_numeric_route (sq : ℚ → ℚ) (col : List (Option ℚ)) : List ℚ :=
  spec_standardize sq (spec_impute_median col)

/-- Spec wording: "impute-missing-with-most-frequent-category" with the
documented deterministic tie-break (smallest level). -/
def spec_impute_most_frequent (col : List (Option String)) : List String :=
  col.map (fun v => v.getD (mostFrequent (col.filterMap id)))

/-- Spec wording: "one-hot-encode" — one indicator column per observed
distinct level. -/
def spec_one_hot (col : List String) : List (List ℚ) :=
  (sortedUniqueStr col).map (fun c => col.map (fun v => if v = c then 1 else 0))

/-- Spec wording: "scale-without-centering" — divide each one-hot column by
its fit-time-learned factor (its standard deviation), the mean not being
subtracted, with the same zero-scale edge case. -/
def spec_scale_no_center (sq : ℚ → ℚ) (cols : List (List ℚ)) : List (List ℚ) :=
  cols.map (fun c =>
    let s := sq (listVar c)
    c.map (fun x => x / (if s = 0 then 1 else s)))

/-- Spec routing for a categorical column: most-frequent imputation, then
one-hot encoding, then scaling without centering. -/
def spec_categorical_route (sq : ℚ → ℚ) (col : List (Option String)) : List (List ℚ) :=
  spec_scale_no_center sq (spec_one_hot (spec_impute_most_frequent col))

/-- The feature matrix the spec describes for a table: every listed numeric
column routed through the numeric steps, every listed categorical column
routed through the categorical steps, other columns dropped. -/
def spec_routed_matrix (sq : ℚ → ℚ) (df : DataFrame) : List (List ℚ) :=
  numerical_columns.map (fun c => spec_numeric_route sq (numColOf df c))
    ++ (categorical_columns.map (fun c => spec_categorical_route sq (catColOf df c))).flatten

deriving instance DecidableEq for Except

/-- Projection of a successful `initiate_data_transformation` result. -/
def onOk {α : Type} (f : TransformOutput → α) :
    Except CustomExceptionObj TransformOutput → Option α
  | .ok o => some (f o)
  | .error _ => none

/-- Sum over the fitted categorical columns of the number of distinct levels
observed at fit time: the width of the one-hot part of the output. -/
def sumLevels (f : FittedPreprocessor) : Nat :=
  (f.catFits.map (fun p => p.2.categories.length)).sum


/-! ### Concrete tables and accessors used by witnesses -/

/-- Concrete training table used by the C1 witness. -/
def leakTrain : DataFrame := ⟨[
  ("gender", .cat [some "female", some "female"]),
  ("race_ethnicity", .cat [some "group B", some "group B"]),
  ("parental_level_of_education", .cat [some "bachelor", some "bachelor"]),
  ("lunch", .cat [some "standard", some "standard"]),
  ("test_preparation_course", .cat [some "none", some "none"]),
  ("math_score", .num [some 72, some 69]),
  ("reading_score", .num [some 72, some 74]),
  ("writing_score", .num [some 74, some 72])]⟩

/-- First concrete test table used by the C1 witness. -/
def leakTestA : DataFrame := ⟨[
  ("gender", .cat [some "female"]),
  ("race_ethnicity", .cat [some "group B"]),
  ("parental_level_of_education", .cat [some "bachelor"]),
  ("lunch", .cat [some "standard"]),
  ("test_preparation_course", .cat [some "none"]),
  ("math_score", .num [some 50]),
  ("reading_score", .num [some 60]),
  ("writing_score", .num [some 61])]⟩

/-- Second concrete test table used by the C1 witness: different values, a
missing entry, different row count. -/
def leakTestB : DataFrame := ⟨[
  ("gender", .cat [some "female", none]),
  ("race_ethnicity", .cat [some "group B", some "group B"]),
  ("parental_level_of_education", .cat [none, some "bachelor"]),
  ("lunch", .cat [some "standard", some "standard"]),
  ("test_preparation_course", .cat [some "none", some "none"]),
  ("math_score", .num [some 90, none]),
  ("reading_score", .num [none, some 100]),
  ("writing_score", .num [some 99, some 100])]⟩

/-- Concrete feature table used by the C2 witness: missing values in both
kinds of columns and a two-level categorical column. -/
def routeDF : DataFrame := ⟨[
  ("gender", .cat [some "male", some "female"]),
  ("race_ethnicity", .cat [some "group A", some "group A"]),
  ("parental_level_of_education", .cat [none, some "college"]),
  ("lunch", .cat [some "standard", some "reduced"]),
  ("test_preparation_course", .cat [some "none", some "completed"]),
  ("reading_score", .num [some 5, none]),
  ("writing_score", .num [some 4, some 2])]⟩

/-- Concrete training table for the C3 witness: `lunch` has two observed
levels at fit time. -/
def shapeTrain : DataFrame := ⟨[
  ("gender", .cat [some "female", some "female"]),
  ("race_ethnicity", .cat [some "group C", some "group C"]),
  ("parental_level_of_education", .cat [some "college", some "college"]),
  ("lunch", .cat [some "standard", some "free"]),
  ("test_preparation_course", .cat [some "none", some "none"]),
  ("math_score", .num [some 10, some 20]),
  ("reading_score", .num [some 1, some 3]),
  ("writing_score", .num [some 2, some 4])]⟩

/-- Concrete test table for the C3 witness: contains only a strict subset of
the training table's `lunch` levels. -/
def shapeTest : DataFrame := ⟨[
  ("gender", .cat [some "female"]),
  ("race_ethnicity", .cat [some "group C"]),
  ("parental_level_of_education", .cat [some "college"]),
  ("lunch", .cat [some "free"]),
  ("test_preparation_course", .cat [some "none"]),
  ("math_score", .num [some 30]),
  ("reading_score", .num [some 2]),
  ("writing_score", .num [some 3])]⟩

/-- The `var_` learned by the scaler for the `j`-th numeric column of a
`fit_transform` result (junk values outside a successful run / the numeric
range). -/
def fittedNumVar (r : Except PyError (FittedPreprocessor × List (List ℚ))) (j : Nat) : ℚ :=
  match r with
  | .ok (F, _) => ((F.numFits.getD j ("", ⟨0, 0, 0, 0⟩)).2).var
  | .error _ => 0

/-- The `j`-th column of the feature matrix of a `fit_transform` result. -/
def outputColumn (r : Except PyError (FittedPreprocessor × List (List ℚ))) (j : Nat) :
    List ℚ :=
  match r with
  | .ok (_, M) => M.getD j []
  | .error _ => []

/-- Concrete training table used by the C8 witness: both numeric columns have
fit-time variance 1. -/
def stdDF : DataFrame := ⟨[
  ("gender", .cat [some "female", some "female"]),
  ("race_ethnicity", .cat [some "group B", some "group B"]),
  ("parental_level_of_education", .cat [some "college", some "college"]),
  ("lunch", .cat [some "standard", some "standard"]),
  ("test_preparation_course", .cat [some "none", some "none"]),
  ("reading_score", .num [some 5, some 7]),
  ("writing_score", .num [some 1, some 3])]⟩

/-! ### Generic lemmas about the error-propagating map -/

theorem exceptMapM_congr {α β : Type} {f g : α → Except PyError β} :
    ∀ {l : List α}, (∀ a ∈ l, f a = g a) → exceptMapM f l = exceptMapM g l := by
  intro l
  induction l with
  | nil => intro _; rfl
  | cons a l ih =>
    intro h
    have ha := h a (by simp)
    have hl := ih (fun x hx => h x (by simp [hx]))
    simp only [exceptMapM, ha, hl]

theorem exceptMapM_ok_length {α β : Type} {f : α → Except PyError β} :
    ∀ {l : List α} {ys : List β}, exceptMapM f l = .ok ys → ys.length = l.length := by
  intro l
  induction l with
  | nil => intro ys h; simp only [exceptMapM] at h; cases h; rfl
  | cons a l ih =>
    intro ys h
    simp only [exceptMapM] at h
    cases hfa : f a with
    | error e => rw [hfa] at h; cases h
    | ok b =>
      rw [hfa] at h
      cases hml : exceptMapM f l with
      | error e => rw [hml] at h; cases h
      | ok bs =>
        rw [hml] at h
        cases h
        simp [ih hml]

theorem exceptMapM_ok_mem {α β : Type} {f : α → Except PyError β} :
    ∀ {l : List α} {ys : List β}, exceptMapM f l = .ok ys →
      ∀ a ∈ l, ∃ b, f a = .ok b := by
  intro l
  induction l with
  | nil => intro ys _ a ha; cases ha
  | cons a l ih =>
    intro ys h x hx
    simp only [exceptMapM] at h
    cases hfa : f a with
    | error e => rw [hfa] at h; cases h
    | ok b =>
      rw [hfa] at h
      cases hml : exceptMapM f l with
      | error e => rw [hml] at h; cases h
      | ok bs =>
        rcases List.mem_cons.mp hx with rfl | hx2
        · exact ⟨b, hfa⟩
        · exact ih hml x hx2

theorem exceptMapM_ok_eq_map {α β : Type} {f : α → Except PyError β} {g : α → β} :
    ∀ {l : List α} {ys : List β},
      (∀ a ∈ l, ∀ b, f a = .ok b → b = g a) →
      exceptMapM f l = .ok ys → ys = l.map g := by
  intro l
  induction l with
  | nil => intro ys _ h; simp only [exceptMapM] at h; cases h; rfl
  | cons a l ih =>
    intro ys hfg h
    simp only [exceptMapM] at h
    cases hfa : f a with
    | error e => rw [hfa] at h; cases h
    | ok b =>
      rw [hfa] at h
      cases hml : exceptMapM f l with
      | error e => rw [hml] at h; cases h
      | ok bs =>
        rw [hml] at h
        cases h
        have hb := hfg a (by simp) b hfa
        have hbs := ih (fun x hx => hfg x (by simp [hx])) hml
        simp [hb, hbs]

theorem exceptMapM_ok_of_map {α β : Type} {f : α → Except PyError β} {g : α → β} :
    ∀ {l : List α}, (∀ a ∈ l, f a = .ok (g a)) → exceptMapM f l = .ok (l.map g) := by
  intro l
  induction l with
  | nil => intro _; rfl
  | cons a l ih =>
    intro h
    simp only [exceptMapM, h a (by simp), ih (fun x hx => h x (by simp [hx])), List.map]

/-! ### Lookup lemmas -/

theorem findCol_cons_of_ne {cols : List (String × ColData)} {name c : String}
    (d : ColData) (h : name ≠ c) :
    DataFrame.findCol ⟨(name, d) :: cols⟩ c = DataFrame.findCol ⟨cols⟩ c := by
  simp only [DataFrame.findCol, List.find?]
  have : (name == c) = false := by simp [h]
  rw [this]

theorem getNumFeature_ok_eq {df : DataFrame} {c : String} {v : List (Option ℚ)}
    (h : getNumFeature df c = .ok v) : numColOf df c = v := by
  unfold getNumFeature at h
  unfold numColOf
  cases hf : df.findCol c with
  | none => rw [hf] at h; cases h
  | some cd =>
    rw [hf] at h
    cases cd with
    | num vals => cases h; rfl
    | cat vals => cases h

theorem getCatFeature_ok_eq {df : DataFrame} {c : String} {v : List (Option String)}
    (h : getCatFeature df c = .ok v) : catColOf df c = v := by
  unfold getCatFeature at h
  unfold catColOf
  cases hf : df.findCol c with
  | none => rw [hf] at h; cases h
  | some cd =>
    rw [hf] at h
    cases cd with
    | num vals => cases h
    | cat vals => cases h; rfl

/-! ### Claim theorems -/

/-- C9: constructing a `CustomException` succeeds only inside an active
exception-handling context — with no currently handled exception the
traceback is `None` and the construction itself fails with an
`AttributeError`; inside one, the origin metadata (file name, line number) is
read from the handled exception's traceback, the detailed message is printed
to stdout as a side effect, the base `Exception` receives no arguments (the
`super().__init__` call is commented out), and the detail is exposed through
`__str__`. -/
theorem customException_requires_active_exception_context (msg : String) (tb : Traceback) :
    customExceptionInit msg none
        = .error "AttributeError: NoneType object has no attribute tb_frame"
    ∧ customExceptionInit msg (some tb)
        = .ok (⟨error_message_of msg tb, []⟩,
            ["\n\n+++++++++++++++++++++ " ++ error_message_of msg tb
              ++ " \n\n+++++++++++++++++++++"])
    ∧ customExceptionStr ⟨error_message_of msg tb, []⟩ = error_message_of msg tb
    ∧ error_message_of msg tb
        = "Error occurred in python script name [" ++ tb.fileName ++ "] line number ["
            ++ toString tb.lineNumber ++ "] error message [" ++ msg ++ "]" :=
  ⟨rfl, rfl, rfl, rfl⟩

/-- C10: importing the logger module unconditionally creates a directory
whose final path component is the timestamped log file name
`<MM_DD_YYYY_HH_MM_SS>.log` under `logs/`, and configures logging to write to
a file of that same name inside that directory, so the configured log file
path contains the timestamped name twice. -/
theorem logger_import_doubles_log_file_name (cwd timestamp : String) :
    (logger_import_effects cwd timestamp).createdDirectory
        = cwd ++ "/logs/" ++ (timestamp ++ ".log")
    ∧ (logger_import_effects cwd timestamp).configuredLogFile
        = (logger_import_effects cwd timestamp).createdDirectory
            ++ "/" ++ (timestamp ++ ".log")
    ∧ (logger_import_effects cwd timestamp).configuredLogFile
        = cwd ++ "/logs/" ++ (timestamp ++ ".log") ++ "/" ++ (timestamp ++ ".log") :=
  ⟨rfl, rfl, rfl⟩

/-- C5: every failure inside the orchestration is wrapped into the single
structured-error type modelling `CustomException`, whose message is built by
`error_message_detail` from the originating file and line together with the
rendered underlying cause, and is re-raised to the caller; no error is
swallowed (every run is either a success or such a wrapped error). -/
theorem initiate_failures_are_wrapped (sq : ℚ → ℚ) (train_df test_df : DataFrame) :
    (∃ o, initiate_data_transformation sq train_df test_df = .ok o)
    ∨ (∃ line e, initiate_core sq train_df test_df = .error (line, e)
        ∧ initiate_data_transformation sq train_df test_df
            = .error ⟨error_message_of (pyErrorStr e)
                ⟨data_transformation_file, line⟩, []⟩) := by
  cases h : initiate_core sq train_df test_df with
  | ok o =>
    exact Or.inl ⟨o, by simp [initiate_data_transformation, h]⟩
  | error p =>
    obtain ⟨line, e⟩ := p
    exact Or.inr ⟨line, e, rfl, by simp [initiate_data_transformation, h]⟩

/-- C4: if the target column `math_score` is absent from the training table,
`initiate_data_transformation` fails with the wrapped schema error
identifying `math_score` (the `KeyError` raised by the `df.drop` on line 108)
and no preprocessor artifact is written; moreover no call ever produces
partial results — either the two output matrices and the artifact location
are returned and the artifact is written, or the call raises and writes
nothing. -/
theorem missing_target_gives_schema_error_and_no_artifact
    (sq : ℚ → ℚ) (train_df test_df : DataFrame)
    (h : train_df.hasCol target_column_name = false) :
    initiate_data_transformation sq train_df test_df
        = .error ⟨error_message_of (pyErrorStr (.keyError target_column_name))
            ⟨data_transformation_file, 108⟩, []⟩
    ∧ initiate_data_transformation_writes sq train_df test_df = []
    ∧ (∀ sq2 tr te,
        (∃ o, initiate_data_transformation sq2 tr te = .ok o
            ∧ initiate_data_transformation_writes sq2 tr te
                = [(o.obj_file_path, o.saved_preprocessor)])
        ∨ (∃ ce, initiate_data_transformation sq2 tr te = .error ce
            ∧ initiate_data_transformation_writes sq2 tr te = [])) := by
  have hdrop : dropColumn train_df target_column_name
      = .error (.keyError target_column_name) := by
    simp [dropColumn, h]
  have hcore : initiate_core sq train_df test_df
      = .error (108, .keyError target_column_name) := by
    simp [initiate_core, hdrop]
  refine ⟨?_, ?_, ?_⟩
  · simp [initiate_data_transformation, hcore]
  · simp [initiate_data_transformation_writes, hcore]
  · intro sq2 tr te
    cases h2 : initiate_core sq2 tr te with
    | ok o =>
      exact Or.inl ⟨o, by simp [initiate_data_transformation, h2],
        by simp [initiate_data_transformation_writes, h2]⟩
    | error p =>
      obtain ⟨line, e⟩ := p
      exact Or.inr ⟨⟨error_message_of (pyErrorStr e)
          ⟨data_transformation_file, line⟩, []⟩,
        by simp [initiate_data_transformation, h2],
        by simp [initiate_data_transformation_writes, h2]⟩

/-- Witness for C4 at a concrete input: a training table without
`math_score`. -/
theorem missing_target_witness :
    (DataFrame.mk [("writing_score", .num [some 1])]).hasCol target_column_name = false
    ∧ (initiate_data_transformation (fun q => q)
          ⟨[("writing_score", .num [some 1])]⟩ ⟨[]⟩
        = .error ⟨error_message_of (pyErrorStr (.keyError target_column_name))
            ⟨data_transformation_file, 108⟩, []⟩
      ∧ initiate_data_transformation_writes (fun q => q)
          ⟨[("writing_score", .num [some 1])]⟩ ⟨[]⟩ = []
      ∧ (∀ sq2 tr te,
          (∃ o, initiate_data_transformation sq2 tr te = .ok o
              ∧ initiate_data_transformation_writes sq2 tr te
                  = [(o.obj_file_path, o.saved_preprocessor)])
          ∨ (∃ ce, initiate_data_transformation sq2 tr te = .error ce
              ∧ initiate_data_transformation_writes sq2 tr te = []))) :=
  ⟨by decide,
   missing_target_gives_schema_error_and_no_artifact (fun q => q)
     ⟨[("writing_score", .num [some 1])]⟩ ⟨[]⟩ (by decide)⟩

/-- C6 counterexample: the transformation the repository builds pins the
encoder's unknown-category handling (an `OneHotEncoder()` with its defaults);
applied to a level unseen at fit time it raises — at this concrete input the
result is the error, not the all-zero indicator row the claim offers as a
selectable alternative, and no configuration parameter exists anywhere in
`get_data_transformer_object`'s interface to select otherwise. -/
theorem unknown_category_counterexample :
    cat_pipeline_transform (cat_pipeline_fit (fun q => q) [some "a", some "b"]) [some "c"]
        = .error (.valueError "Found unknown categories during transform")
    ∧ ∀ m : List (List ℚ),
        cat_pipeline_transform (cat_pipeline_fit (fun q => q) [some "a", some "b"]) [some "c"]
          ≠ .ok m := by
  have h1 : cat_pipeline_transform (cat_pipeline_fit (fun q => q) [some "a", some "b"])
      [some "c"] = .error (.valueError "Found unknown categories during transform") := by
    decide
  exact ⟨h1, fun m hm => by simp [h1] at hm⟩

/-- C6 (amended): when the fitted categorical sub-pipeline is applied to a
column containing a level not among the fit-time categories, the behavior is
deterministic: it always raises the unknown-categories error (the repository
constructs `OneHotEncoder()` with the default `handle_unknown='error'` and
exposes no configuration to ignore the level instead). -/
theorem unknown_category_always_raises (f : CatPipelineFit) (vals : List (Option String))
    (h : (imputeCatVals f.statistic vals).all
        (fun v => f.categories.contains v) = false) :
    cat_pipeline_transform f vals
        = .error (.valueError "Found unknown categories during transform")
    ∧ ∀ m : List (List ℚ), cat_pipeline_transform f vals ≠ .ok m := by
  have h1 : cat_pipeline_transform f vals
      = .error (.valueError "Found unknown categories during transform") := by
    simp only [cat_pipeline_transform, h]
    simp
  exact ⟨h1, fun m hm => by simp [h1] at hm⟩

/-- Witness for C6's amended theorem at a concrete input. -/
theorem unknown_category_witness :
    ((imputeCatVals (cat_pipeline_fit (fun q => q) [some "x", some "y"]).statistic
          [some "z"]).all
        (fun v => (cat_pipeline_fit (fun q => q) [some "x", some "y"]).categories.contains v)
      = false)
    ∧ (cat_pipeline_transform (cat_pipeline_fit (fun q => q) [some "x", some "y"]) [some "z"]
        = .error (.valueError "Found unknown categories during transform")
      ∧ ∀ m : List (List ℚ),
          cat_pipeline_transform (cat_pipeline_fit (fun q => q) [some "x", some "y"])
              [some "z"]
            ≠ .ok m) :=
  ⟨by decide, unknown_category_always_raises _ _ (by decide)⟩

theorem getNumFeature_cons_of_ne {df : DataFrame} {name c : String} (d : ColData)
    (h : name ≠ c) :
    getNumFeature ⟨(name, d) :: df.cols⟩ c = getNumFeature df c := by
  unfold getNumFeature
  rw [findCol_cons_of_ne d h]

theorem getCatFeature_cons_of_ne {df : DataFrame} {name c : String} (d : ColData)
    (h : name ≠ c) :
    getCatFeature ⟨(name, d) :: df.cols⟩ c = getCatFeature df c := by
  unfold getCatFeature
  rw [findCol_cons_of_ne d h]

/-- A successful fit records exactly the listed columns, in order, each with
the sub-pipeline fitted on that column of the fitted table. -/
theorem preprocessor_fit_ok_structure {sq : ℚ → ℚ} {df : DataFrame}
    {F : FittedPreprocessor} (h : preprocessor_fit sq df = .ok F) :
    F.numFits = numerical_columns.map
        (fun c => (c, num_pipeline_fit sq (numColOf df c)))
    ∧ F.catFits = categorical_columns.map
        (fun c => (c, cat_pipeline_fit sq (catColOf df c))) := by
  unfold preprocessor_fit at h
  cases hn : exceptMapM (fun c =>
      match getNumFeature df c with
      | .error e => .error e
      | .ok v => .ok (c, num_pipeline_fit sq v)) numerical_columns with
  | error e => rw [hn] at h; cases h
  | ok nf =>
    rw [hn] at h
    cases hc : exceptMapM (fun c =>
        match getCatFeature df c with
        | .error e => .error e
        | .ok v => .ok (c, cat_pipeline_fit sq v)) categorical_columns with
    | error e => rw [hc] at h; cases h
    | ok cf =>
      rw [hc] at h
      cases h
      constructor
      · refine exceptMapM_ok_eq_map ?_ hn
        intro c _ b hb
        cases hg : getNumFeature df c with
        | error e => rw [hg] at hb; cases hb
        | ok v =>
          rw [hg] at hb
          cases hb
          rw [getNumFeature_ok_eq hg]
      · refine exceptMapM_ok_eq_map ?_ hc
        intro c _ b hb
        cases hg : getCatFeature df c with
        | error e => rw [hg] at hb; cases hb
        | ok v =>
          rw [hg] at hb
          cases hb
          rw [getCatFeature_ok_eq hg]

/-- Prepending a column listed in neither routing list leaves the fit of the
`ColumnTransformer` unchanged. -/
theorem preprocessor_fit_cons_unlisted (sq : ℚ → ℚ) (df : DataFrame)
    (name : String) (d : ColData)
    (h1 : name ∉ numerical_columns) (h2 : name ∉ categorical_columns) :
    preprocessor_fit sq ⟨(name, d) :: df.cols⟩ = preprocessor_fit sq df := by
  unfold preprocessor_fit
  have e1 : exceptMapM (fun c =>
      match getNumFeature ⟨(name, d) :: df.cols⟩ c with
      | .error e => .error e
      | .ok v => .ok (c, num_pipeline_fit sq v)) numerical_columns
      = exceptMapM (fun c =>
      match getNumFeature df c with
      | .error e => .error e
      | .ok v => .ok (c, num_pipeline_fit sq v)) numerical_columns :=
    exceptMapM_congr (fun c hc => by
      have hne : name ≠ c := fun hn => h1 (hn ▸ hc)
      simp only [getNumFeature_cons_of_ne d hne])
  have e2 : exceptMapM (fun c =>
      match getCatFeature ⟨(name, d) :: df.cols⟩ c with
      | .error e => .error e
      | .ok v => .ok (c, cat_pipeline_fit sq v)) categorical_columns
      = exceptMapM (fun c =>
      match getCatFeature df c with
      | .error e => .error e
      | .ok v => .ok (c, cat_pipeline_fit sq v)) categorical_columns :=
    exceptMapM_congr (fun c hc => by
      have hne : name ≠ c := fun hn => h2 (hn ▸ hc)
      simp only [getCatFeature_cons_of_ne d hne])
  rw [e1, e2]

/-- Prepending a column listed in neither routing list leaves the output of a
fitted transformation unchanged (the column is dropped). -/
theorem preprocessor_transform_cons_unlisted (sq : ℚ → ℚ) (df df2 : DataFrame)
    (name : String) (d : ColData) (F : FittedPreprocessor)
    (hF : preprocessor_fit sq df2 = .ok F)
    (h1 : name ∉ numerical_columns) (h2 : name ∉ categorical_columns) :
    preprocessor_transform F ⟨(name, d) :: df.cols⟩ = preprocessor_transform F df := by
  obtain ⟨hFn, hFc⟩ := preprocessor_fit_ok_structure hF
  have hmemn : ∀ p ∈ F.numFits, p.1 ∈ numerical_columns := by
    intro p hp
    rw [hFn] at hp
    obtain ⟨c, hc, hpc⟩ := List.mem_map.mp hp
    rw [← hpc]
    exact hc
  have hmemc : ∀ p ∈ F.catFits, p.1 ∈ categorical_columns := by
    intro p hp
    rw [hFc] at hp
    obtain ⟨c, hc, hpc⟩ := List.mem_map.mp hp
    rw [← hpc]
    exact hc
  unfold preprocessor_transform
  have e1 : exceptMapM (fun p =>
      match getNumFeature ⟨(name, d) :: df.cols⟩ p.1 with
      | .error e => .error e
      | .ok v => .ok (num_pipeline_transform p.2 v)) F.numFits
      = exceptMapM (fun p =>
      match getNumFeature df p.1 with
      | .error e => .error e
      | .ok v => .ok (num_pipeline_transform p.2 v)) F.numFits :=
    exceptMapM_congr (fun p hp => by
      have hne : name ≠ p.1 := fun hn => h1 (hn ▸ hmemn p hp)
      simp only [getNumFeature_cons_of_ne d hne])
  have e2 : exceptMapM (fun p =>
      match getCatFeature ⟨(name, d) :: df.cols⟩ p.1 with
      | .error e => .error e
      | .ok v => cat_pipeline_transform p.2 v) F.catFits
      = exceptMapM (fun p =>
      match getCatFeature df p.1 with
      | .error e => .error e
      | .ok v => cat_pipeline_transform p.2 v) F.catFits :=
    exceptMapM_congr (fun p hp => by
      have hne : name ≠ p.1 := fun hn => h2 (hn ▸ hmemc p hp)
      simp only [getCatFeature_cons_of_ne d hne])
  rw [e1, e2]

/-- C7: each input column is routed to exactly one of the two sub-pipelines
according to the fixed column-name lists (the lists are disjoint and the
transformation reads exactly the listed columns), and a column present in the
input table but in neither list is dropped: prepending any such column —
even shadowing every other column — changes neither the fit nor the output
feature matrix of a fitted transformation. -/
theorem columns_routed_by_fixed_lists_and_unlisted_dropped
    (sq : ℚ → ℚ) (df df2 : DataFrame) (name : String) (d : ColData)
    (h1 : name ∉ numerical_columns) (h2 : name ∉ categorical_columns) :
    (∀ c ∈ numerical_columns, c ∉ categorical_columns)
    ∧ (∀ c ∈ categorical_columns, c ∉ numerical_columns)
    ∧ preprocessor_fit sq ⟨(name, d) :: df.cols⟩ = preprocessor_fit sq df
    ∧ (∀ F, preprocessor_fit sq df2 = .ok F →
        preprocessor_transform F ⟨(name, d) :: df.cols⟩ = preprocessor_transform F df)
    ∧ preprocessor_fit_transform sq ⟨(name, d) :: df.cols⟩
        = preprocessor_fit_transform sq df := by
  refine ⟨by decide, by decide, preprocessor_fit_cons_unlisted sq df name d h1 h2,
    fun F hF => preprocessor_transform_cons_unlisted sq df df2 name d F hF h1 h2, ?_⟩
  unfold preprocessor_fit_transform
  rw [preprocessor_fit_cons_unlisted sq df name d h1 h2]
  cases hF : preprocessor_fit sq df with
  | error e => rfl
  | ok F =>
    dsimp only
    rw [preprocessor_transform_cons_unlisted sq df df name d F hF h1 h2]

/-- Witness for C7 at a concrete input: an unlisted column `"extra"` prepended
to a table. -/
theorem columns_routed_witness :
    ("extra" ∉ numerical_columns ∧ "extra" ∉ categorical_columns)
    ∧ ((∀ c ∈ numerical_columns, c ∉ categorical_columns)
      ∧ (∀ c ∈ categorical_columns, c ∉ numerical_columns)
      ∧ preprocessor_fit (fun q => q)
            ⟨("extra", .num [some 5]) :: (DataFrame.mk [("writing_score", .num [some 1])]).cols⟩
          = preprocessor_fit (fun q => q) ⟨[("writing_score", .num [some 1])]⟩
      ∧ (∀ F, preprocessor_fit (fun q => q) ⟨[]⟩ = .ok F →
          preprocessor_transform F
              ⟨("extra", .num [some 5]) :: (DataFrame.mk [("writing_score", .num [some 1])]).cols⟩
            = preprocessor_transform F ⟨[("writing_score", .num [some 1])]⟩)
      ∧ preprocessor_fit_transform (fun q => q)
            ⟨("extra", .num [some 5]) :: (DataFrame.mk [("writing_score", .num [some 1])]).cols⟩
          = preprocessor_fit_transform (fun q => q) ⟨[("writing_score", .num [some 1])]⟩) :=
  ⟨⟨by decide, by decide⟩,
   columns_routed_by_fixed_lists_and_unlisted_dropped (fun q => q)
     ⟨[("writing_score", .num [some 1])]⟩ ⟨[]⟩ "extra" (.num [some 5])
     (by decide) (by decide)⟩

theorem isOk_exists {ε α : Type} {x : Except ε α}
    (h : x.isOk = true) : ∃ o, x = .ok o := by
  cases x with
  | ok o => exact ⟨o, rfl⟩
  | error e => simp [Except.isOk, Except.toBool] at h

theorem initiate_ok_iff {sq : ℚ → ℚ} {a b : DataFrame} {o : TransformOutput} :
    initiate_data_transformation sq a b = .ok o ↔ initiate_core sq a b = .ok o := by
  unfold initiate_data_transformation
  cases h : initiate_core sq a b with
  | ok o2 => simp
  | error p => obtain ⟨line, e⟩ := p; simp

/-- Decomposition of a successful run: the fitted statistics and the
transformed training matrix are computed from the training table alone, the
test matrix by applying that same fit to the test features, and each output
matrix is its feature matrix with the table's own target column attached
last. -/
theorem initiate_core_ok_parts {sq : ℚ → ℚ} {train_df test_df : DataFrame}
    {o : TransformOutput} (h : initiate_core sq train_df test_df = .ok o) :
    ∃ ftrain ttrain F M ftest ttest N,
      dropColumn train_df target_column_name = .ok ftrain
      ∧ getNumColumn train_df target_column_name = .ok ttrain
      ∧ dropColumn test_df target_column_name = .ok ftest
      ∧ getNumColumn test_df target_column_name = .ok ttest
      ∧ preprocessor_fit_transform sq ftrain = .ok (F, M)
      ∧ preprocessor_transform F ftest = .ok N
      ∧ o.train_arr = attachTarget M ttrain
      ∧ o.test_arr = attachTarget N ttest
      ∧ o.saved_preprocessor = F
      ∧ o.obj_file_path = preprocessor_obj_file_path := by
  unfold initiate_core at h
  cases h1 : dropColumn train_df target_column_name with
  | error e => rw [h1] at h; cases h
  | ok ftrain =>
    rw [h1] at h
    cases h2 : getNumColumn train_df target_column_name with
    | error e => rw [h2] at h; cases h
    | ok ttrain =>
      rw [h2] at h
      cases h3 : dropColumn test_df target_column_name with
      | error e => rw [h3] at h; cases h
      | ok ftest =>
        rw [h3] at h
        cases h4 : getNumColumn test_df target_column_name with
        | error e => rw [h4] at h; cases h
        | ok ttest =>
          rw [h4] at h
          dsimp only at h
          cases h5 : preprocessor_fit_transform sq ftrain with
          | error e => rw [h5] at h; cases h
          | ok FM =>
            obtain ⟨F, M⟩ := FM
            rw [h5] at h
            dsimp only at h
            cases h6 : preprocessor_transform F ftest with
            | error e => rw [h6] at h; cases h
            | ok testArr =>
              rw [h6] at h
              dsimp only at h
              cases h
              exact ⟨ftrain, ttrain, F, M, ftest, ttest, testArr, rfl, rfl, rfl, rfl, h5, h6, rfl, rfl, rfl, rfl⟩

/-- C1: all fit-time statistics are learned from the training features only;
the test table never influences them — transforming a training table
alongside one test table or alongside any other produces the identical
training output matrix and the identical persisted fitted preprocessor. -/
theorem train_output_independent_of_test
    (sq : ℚ → ℚ) (train_df t1 t2 : DataFrame)
    (h1 : (initiate_data_transformation sq train_df t1).isOk = true)
    (h2 : (initiate_data_transformation sq train_df t2).isOk = true) :
    onOk (fun o => o.train_arr) (initiate_data_transformation sq train_df t1)
      = onOk (fun o => o.train_arr) (initiate_data_transformation sq train_df t2)
    ∧ onOk (fun o => o.saved_preprocessor) (initiate_data_transformation sq train_df t1)
      = onOk (fun o => o.saved_preprocessor) (initiate_data_transformation sq train_df t2) := by
  obtain ⟨o1, ho1⟩ := isOk_exists h1
  obtain ⟨o2, ho2⟩ := isOk_exists h2
  obtain ⟨fa, ta, Fa, Ma, _, _, _, ha1, ha2, _, _, ha3, _, ha4, _, ha5, _⟩ :=
    initiate_core_ok_parts (initiate_ok_iff.mp ho1)
  obtain ⟨fb, tb, Fb, Mb, _, _, _, hb1, hb2, _, _, hb3, _, hb4, _, hb5, _⟩ :=
    initiate_core_ok_parts (initiate_ok_iff.mp ho2)
  rw [ha1] at hb1
  cases hb1
  rw [ha2] at hb2
  cases hb2
  rw [ha3] at hb3
  cases hb3
  rw [ho1, ho2]
  constructor
  · simp only [onOk, ha4, hb4]
  · simp only [onOk, ha5, hb5]




/-- Witness for C1 at concrete inputs: the same training table transformed
alongside two different test tables. -/
theorem train_output_independent_witness :
    ((initiate_data_transformation (fun q => q) leakTrain leakTestA).isOk = true)
    ∧ ((initiate_data_transformation (fun q => q) leakTrain leakTestB).isOk = true)
    ∧ (onOk (fun o => o.train_arr)
          (initiate_data_transformation (fun q => q) leakTrain leakTestA)
        = onOk (fun o => o.train_arr)
          (initiate_data_transformation (fun q => q) leakTrain leakTestB)
      ∧ onOk (fun o => o.saved_preprocessor)
          (initiate_data_transformation (fun q => q) leakTrain leakTestA)
        = onOk (fun o => o.saved_preprocessor)
          (initiate_data_transformation (fun q => q) leakTrain leakTestB)) :=
  ⟨by decide, by decide,
   train_output_independent_of_test (fun q => q) leakTrain leakTestA leakTestB
     (by decide) (by decide)⟩

theorem mem_insertSortedStr {x y : String} :
    ∀ {l : List String}, x ∈ insertSortedStr y l ↔ x = y ∨ x ∈ l := by
  intro l
  induction l with
  | nil => simp [insertSortedStr]
  | cons a l ih =>
    simp only [insertSortedStr]
    split
    · simp [List.mem_cons]
    · simp only [List.mem_cons, ih]
      tauto

theorem mem_sortStr {x : String} : ∀ {l : List String}, x ∈ sortStr l ↔ x ∈ l := by
  intro l
  induction l with
  | nil => simp [sortStr]
  | cons a l ih =>
    simp only [sortStr, mem_insertSortedStr, List.mem_cons, ih]

theorem mem_sortedUniqueStr {x : String} {l : List String} :
    x ∈ sortedUniqueStr l ↔ x ∈ l := by
  rw [sortedUniqueStr, mem_sortStr, List.mem_dedup]

theorem zip_map_self {α β γ : Type} (f : α → β) (g : α × β → γ) :
    ∀ l : List α, (l.zip (l.map f)).map g = l.map (fun a => g (a, f a)) := by
  intro l
  induction l with
  | nil => rfl
  | cons a l ih =>
    simp only [List.map, List.zip_cons_cons]
    rw [← ih]
    rfl

/-- The numeric sub-pipeline, fitted on a column and applied to that same
column, performs exactly the spec's numeric route: median imputation followed
by zero-mean standardization by the learned scale. -/
theorem num_pipeline_fit_transform_spec (sq : ℚ → ℚ) (v : List (Option ℚ)) :
    num_pipeline_transform (num_pipeline_fit sq v) v = spec_numeric_route sq v := rfl

/-- The categorical sub-pipeline, fitted on a column and applied to that same
column, performs exactly the spec's categorical route: most-frequent
imputation, one-hot encoding over the observed levels, scaling without
centering. -/
theorem cat_pipeline_fit_transform_spec (sq : ℚ → ℚ) (v : List (Option String)) :
    cat_pipeline_transform (cat_pipeline_fit sq v) v
      = .ok (spec_categorical_route sq v) := by
  unfold cat_pipeline_transform cat_pipeline_fit
  have hall : (imputeCatVals (imputeMostFrequentFit v) v).all
      (fun val => (sortedUniqueStr (imputeCatVals (imputeMostFrequentFit v) v)).contains val)
      = true := by
    rw [List.all_eq_true]
    intro val hval
    have : val ∈ sortedUniqueStr (imputeCatVals (imputeMostFrequentFit v) v) :=
      mem_sortedUniqueStr.mpr hval
    simpa using this
  simp only [hall, if_true, cat_pipeline_output]
  rw [zip_map_self]
  simp only [spec_categorical_route, spec_scale_no_center, spec_one_hot,
    spec_impute_most_frequent, imputeCatVals, imputeMostFrequentFit, oneHotColumn,
    handle_zeros_in_scale, List.map_map, Function.comp_def]

/-- C2: the transformation built by `get_data_transformer_object` routes
every listed numeric column through median imputation followed by zero-mean
unit-variance standardization, and every listed categorical column through
most-frequent imputation, then one-hot encoding, then scaling without
centering: the matrix produced by `fit_transform` is exactly the spec-side
routed matrix built from those steps. -/
theorem transformer_routes_columns_per_spec (sq : ℚ → ℚ) (df : DataFrame)
    (h : (preprocessor_fit_transform sq df).isOk = true) :
    Except.map Prod.snd (preprocessor_fit_transform sq df)
      = .ok (spec_routed_matrix sq df) := by
  obtain ⟨FM, hFM⟩ := isOk_exists h
  rw [hFM]
  unfold preprocessor_fit_transform at hFM
  cases hfit : preprocessor_fit sq df with
  | error e => rw [hfit] at hFM; cases hFM
  | ok F2 =>
    rw [hfit] at hFM
    dsimp only at hFM
    cases htr : preprocessor_transform F2 df with
    | error e => rw [htr] at hFM; cases hFM
    | ok M2 =>
      rw [htr] at hFM
      dsimp only at hFM
      cases hFM
      obtain ⟨hFn, hFc⟩ := preprocessor_fit_ok_structure hfit
      show Except.ok M2 = Except.ok (spec_routed_matrix sq df)
      refine congrArg Except.ok ?_
      unfold preprocessor_transform at htr
      cases hnum : exceptMapM (fun p =>
          match getNumFeature df p.1 with
          | .error e => .error e
          | .ok v => .ok (num_pipeline_transform p.2 v)) F2.numFits with
      | error e => rw [hnum] at htr; cases htr
      | ok numCols =>
        rw [hnum] at htr
        dsimp only at htr
        cases hcat : exceptMapM (fun p =>
            match getCatFeature df p.1 with
            | .error e => .error e
            | .ok v => cat_pipeline_transform p.2 v) F2.catFits with
        | error e => rw [hcat] at htr; cases htr
        | ok catGroups =>
          rw [hcat] at htr
          dsimp only at htr
          cases htr
          have hnumEq : numCols = F2.numFits.map
              (fun p => num_pipeline_transform p.2 (numColOf df p.1)) := by
            refine exceptMapM_ok_eq_map ?_ hnum
            intro p _ b hb
            cases hg : getNumFeature df p.1 with
            | error e => rw [hg] at hb; cases hb
            | ok v =>
              rw [hg] at hb
              cases hb
              rw [getNumFeature_ok_eq hg]
          have hcatEq : catGroups = F2.catFits.map
              (fun p => spec_categorical_route sq (catColOf df p.1)) := by
            refine exceptMapM_ok_eq_map ?_ hcat
            intro p hp b hb
            have hp2 : p.2 = cat_pipeline_fit sq (catColOf df p.1) := by
              rw [hFc] at hp
              obtain ⟨c, _, hpc⟩ := List.mem_map.mp hp
              rw [← hpc]
            cases hg : getCatFeature df p.1 with
            | error e => rw [hg] at hb; cases hb
            | ok v =>
              rw [hg] at hb
              dsimp only at hb
              rw [hp2, getCatFeature_ok_eq hg] at hb
              rw [cat_pipeline_fit_transform_spec] at hb
              cases hb
              rw [← getCatFeature_ok_eq hg]
          rw [hnumEq, hcatEq, hFn, hFc]
          unfold spec_routed_matrix
          simp only [List.map_map, Function.comp_def]
          refine congrArg₂ List.append ?_ rfl
          refine List.map_congr_left ?_
          intro c _
          rw [num_pipeline_fit_transform_spec]


/-- Witness for C2 at a concrete input. -/
theorem transformer_routes_witness :
    ((preprocessor_fit_transform (fun q => q) routeDF).isOk = true)
    ∧ Except.map Prod.snd (preprocessor_fit_transform (fun q => q) routeDF)
        = .ok (spec_routed_matrix (fun q => q) routeDF) :=
  ⟨by decide, transformer_routes_columns_per_spec (fun q => q) routeDF (by decide)⟩

theorem getNumColumn_ok_eq {df : DataFrame} {c : String} {v : List (Option ℚ)}
    (h : getNumColumn df c = .ok v) : numColOf df c = v := by
  unfold getNumColumn at h
  unfold numColOf
  cases hf : df.findCol c with
  | none => rw [hf] at h; cases h
  | some cd =>
    rw [hf] at h
    cases cd with
    | num vals => cases h; rfl
    | cat vals => cases h

theorem attachTarget_length (m : List (List ℚ)) (t : List (Option ℚ)) :
    (attachTarget m t).length = m.length + 1 := by
  simp [attachTarget]

theorem attachTarget_getLast (m : List (List ℚ)) (t : List (Option ℚ)) :
    (attachTarget m t).getLast? = some t := by
  unfold attachTarget
  rw [List.getLast?_append]
  rfl

theorem cat_pipeline_transform_ok_length {cf : CatPipelineFit}
    {v : List (Option String)} {b : List (List ℚ)}
    (h : cat_pipeline_transform cf v = .ok b) :
    b.length = min cf.categories.length cf.scales.length := by
  unfold cat_pipeline_transform at h
  split at h
  · cases h
    simp [cat_pipeline_output, List.length_zip]
  · cases h

theorem exceptMapM_ok_forall2 {α β : Type} {f : α → Except PyError β} :
    ∀ {l : List α} {ys : List β}, exceptMapM f l = .ok ys →
      List.Forall₂ (fun a b => f a = .ok b) l ys := by
  intro l
  induction l with
  | nil =>
    intro ys h
    simp only [exceptMapM] at h
    cases h
    exact List.Forall₂.nil
  | cons a l ih =>
    intro ys h
    simp only [exceptMapM] at h
    cases hfa : f a with
    | error e => rw [hfa] at h; cases h
    | ok b =>
      rw [hfa] at h
      cases hml : exceptMapM f l with
      | error e => rw [hml] at h; cases h
      | ok bs =>
        rw [hml] at h
        cases h
        exact List.Forall₂.cons hfa (ih hml)

theorem forall2_map_eq {α β γ : Type} {R : α → β → Prop} {g1 : β → γ} {g2 : α → γ} :
    ∀ {l : List α} {ys : List β}, (∀ a ∈ l, ∀ b, R a b → g1 b = g2 a) →
      List.Forall₂ R l ys → ys.map g1 = l.map g2 := by
  intro l ys hR h
  induction h with
  | nil => rfl
  | @cons a b l2 ys2 hab _ ih =>
    have h1 := hR a (by simp) b hab
    have h2 := ih (fun x hx b2 hb2 => hR x (by simp [hx]) b2 hb2)
    simp only [List.map, h1, h2]

/-- Every successful application of a fitted transformation whose categorical
scale lists match its category lists (as every fit produces) yields one
column per fitted numeric column plus, per fitted categorical column, one
column per observed level. -/
theorem preprocessor_transform_ok_length {F : FittedPreprocessor} {df : DataFrame}
    {M : List (List ℚ)}
    (hsc : ∀ p ∈ F.catFits, p.2.scales.length = p.2.categories.length)
    (h : preprocessor_transform F df = .ok M) :
    M.length = F.numFits.length + sumLevels F := by
  unfold preprocessor_transform at h
  cases hnum : exceptMapM (fun p =>
      match getNumFeature df p.1 with
      | .error e => .error e
      | .ok v => .ok (num_pipeline_transform p.2 v)) F.numFits with
  | error e => rw [hnum] at h; cases h
  | ok numCols =>
    rw [hnum] at h
    dsimp only at h
    cases hcat : exceptMapM (fun p =>
        match getCatFeature df p.1 with
        | .error e => .error e
        | .ok v => cat_pipeline_transform p.2 v) F.catFits with
    | error e => rw [hcat] at h; cases h
    | ok catGroups =>
      rw [hcat] at h
      cases h
      have hlen1 : numCols.length = F.numFits.length := exceptMapM_ok_length hnum
      have hmaps : catGroups.map List.length
          = F.catFits.map (fun p => p.2.categories.length) := by
        refine forall2_map_eq ?_ (exceptMapM_ok_forall2 hcat)
        intro p hp b hpb
        cases hg : getCatFeature df p.1 with
        | error e => rw [hg] at hpb; cases hpb
        | ok v =>
          rw [hg] at hpb
          dsimp only at hpb
          rw [cat_pipeline_transform_ok_length hpb, hsc p hp, Nat.min_self]
      rw [List.length_append, hlen1, List.length_flatten, hmaps]
      rfl

theorem preprocessor_fit_transform_ok_parts {sq : ℚ → ℚ} {df : DataFrame}
    {F : FittedPreprocessor} {M : List (List ℚ)}
    (h : preprocessor_fit_transform sq df = .ok (F, M)) :
    preprocessor_fit sq df = .ok F ∧ preprocessor_transform F df = .ok M := by
  unfold preprocessor_fit_transform at h
  cases hfit : preprocessor_fit sq df with
  | error e => rw [hfit] at h; cases h
  | ok F2 =>
    rw [hfit] at h
    dsimp only at h
    cases htr : preprocessor_transform F2 df with
    | error e => rw [htr] at h; cases h
    | ok M2 =>
      rw [htr] at h
      cases h
      exact ⟨rfl, htr⟩

theorem preprocessor_fit_ok_scales {sq : ℚ → ℚ} {df : DataFrame}
    {F : FittedPreprocessor} (h : preprocessor_fit sq df = .ok F) :
    ∀ p ∈ F.catFits, p.2.scales.length = p.2.categories.length := by
  obtain ⟨_, hFc⟩ := preprocessor_fit_ok_structure h
  intro p hp
  rw [hFc] at hp
  obtain ⟨c, _, hpc⟩ := List.mem_map.mp hp
  rw [← hpc]
  simp [cat_pipeline_fit]

theorem preprocessor_fit_ok_numFits_length {sq : ℚ → ℚ} {df : DataFrame}
    {F : FittedPreprocessor} (h : preprocessor_fit sq df = .ok F) :
    F.numFits.length = numerical_columns.length := by
  obtain ⟨hFn, _⟩ := preprocessor_fit_ok_structure h
  rw [hFn, List.length_map]

theorem dropColumn_ok_eq {df : DataFrame} {n : String} {f : DataFrame}
    (h : dropColumn df n = .ok f) : f = input_features df n := by
  unfold dropColumn at h
  split at h
  · cases h; rfl
  · cases h

theorem cat_pipeline_transform_ok_eq {cf : CatPipelineFit} {v : List (Option String)}
    {b : List (List ℚ)} (h : cat_pipeline_transform cf v = .ok b) :
    b = cat_pipeline_output cf v := by
  unfold cat_pipeline_transform at h
  split at h
  · cases h; rfl
  · cases h

/-- Any successful application of a fitted transformation decomposes, in
order, into the transformed numeric columns of the fitted numeric list
followed by the concatenated one-hot blocks of the fitted categorical list. -/
theorem preprocessor_transform_ok_blocks {F : FittedPreprocessor} {df : DataFrame}
    {M : List (List ℚ)} (h : preprocessor_transform F df = .ok M) :
    M = F.numFits.map (fun p => num_pipeline_transform p.2 (numColOf df p.1))
      ++ (F.catFits.map (fun p => cat_pipeline_output p.2 (catColOf df p.1))).flatten := by
  unfold preprocessor_transform at h
  cases hnum : exceptMapM (fun p =>
      match getNumFeature df p.1 with
      | .error e => .error e
      | .ok v => .ok (num_pipeline_transform p.2 v)) F.numFits with
  | error e => rw [hnum] at h; cases h
  | ok numCols =>
    rw [hnum] at h
    dsimp only at h
    cases hcat : exceptMapM (fun p =>
        match getCatFeature df p.1 with
        | .error e => .error e
        | .ok v => cat_pipeline_transform p.2 v) F.catFits with
    | error e => rw [hcat] at h; cases h
    | ok catGroups =>
      rw [hcat] at h
      cases h
      have h1 : numCols = F.numFits.map
          (fun p => num_pipeline_transform p.2 (numColOf df p.1)) := by
        refine exceptMapM_ok_eq_map ?_ hnum
        intro p _ b hb
        cases hg : getNumFeature df p.1 with
        | error e => rw [hg] at hb; cases hb
        | ok v =>
          rw [hg] at hb
          cases hb
          rw [getNumFeature_ok_eq hg]
      have h2 : catGroups = F.catFits.map
          (fun p => cat_pipeline_output p.2 (catColOf df p.1)) := by
        refine exceptMapM_ok_eq_map ?_ hcat
        intro p _ b hb
        cases hg : getCatFeature df p.1 with
        | error e => rw [hg] at hb; cases hb
        | ok v =>
          rw [hg] at hb
          dsimp only at hb
          rw [cat_pipeline_transform_ok_eq hb, getCatFeature_ok_eq hg]
      rw [h1, h2]

/-- C3: for both output matrices of a successful run, the columns are, in
order, the transformed numeric columns (one per listed numeric column), then
the one-hot blocks of the listed categorical columns (one column per level
observed at fit time), then that table's own target column last; hence the
column count equals (number of numeric columns) + (sum over categorical
columns of distinct levels observed at fit time) + 1, whatever level subset
the test table contains. -/
theorem output_matrix_shape (sq : ℚ → ℚ) (train_df test_df : DataFrame)
    (h : (initiate_data_transformation sq train_df test_df).isOk = true) :
    onOk (fun o => o.train_arr.length)
        (initiate_data_transformation sq train_df test_df)
      = onOk (fun o => numerical_columns.length + sumLevels o.saved_preprocessor + 1)
        (initiate_data_transformation sq train_df test_df)
    ∧ onOk (fun o => o.test_arr.length)
        (initiate_data_transformation sq train_df test_df)
      = onOk (fun o => numerical_columns.length + sumLevels o.saved_preprocessor + 1)
        (initiate_data_transformation sq train_df test_df)
    ∧ onOk (fun o => o.train_arr.getLast?)
        (initiate_data_transformation sq train_df test_df)
      = some (some (numColOf train_df target_column_name))
    ∧ onOk (fun o => o.test_arr.getLast?)
        (initiate_data_transformation sq train_df test_df)
      = some (some (numColOf test_df target_column_name))
    ∧ onOk (fun o => o.train_arr)
        (initiate_data_transformation sq train_df test_df)
      = onOk (fun o =>
          (o.saved_preprocessor.numFits.map (fun p =>
              num_pipeline_transform p.2
                (numColOf (input_features train_df target_column_name) p.1))).map
            (fun col => col.map some)
          ++ ((o.saved_preprocessor.catFits.map (fun p =>
              cat_pipeline_output p.2
                (catColOf (input_features train_df target_column_name) p.1))).flatten.map
            (fun col => col.map some)
          ++ [numColOf train_df target_column_name]))
        (initiate_data_transformation sq train_df test_df)
    ∧ onOk (fun o => o.test_arr)
        (initiate_data_transformation sq train_df test_df)
      = onOk (fun o =>
          (o.saved_preprocessor.numFits.map (fun p =>
              num_pipeline_transform p.2
                (numColOf (input_features test_df target_column_name) p.1))).map
            (fun col => col.map some)
          ++ ((o.saved_preprocessor.catFits.map (fun p =>
              cat_pipeline_output p.2
                (catColOf (input_features test_df target_column_name) p.1))).flatten.map
            (fun col => col.map some)
          ++ [numColOf test_df target_column_name]))
        (initiate_data_transformation sq train_df test_df) := by
  obtain ⟨o, ho⟩ := isOk_exists h
  obtain ⟨ftrain, ttrain, F, M, ftest, ttest, N, h1, h2, h3, h4, h5, h6, h7, h8, h9, _⟩ :=
    initiate_core_ok_parts (initiate_ok_iff.mp ho)
  obtain ⟨hfit, htrM⟩ := preprocessor_fit_transform_ok_parts h5
  have hsc := preprocessor_fit_ok_scales hfit
  have hMlen : M.length = F.numFits.length + sumLevels F :=
    preprocessor_transform_ok_length hsc htrM
  have hNlen : N.length = F.numFits.length + sumLevels F :=
    preprocessor_transform_ok_length hsc h6
  have hnf := preprocessor_fit_ok_numFits_length hfit
  have hMblocks := preprocessor_transform_ok_blocks htrM
  have hNblocks := preprocessor_transform_ok_blocks h6
  have hftr : ftrain = input_features train_df target_column_name := dropColumn_ok_eq h1
  have hfte : ftest = input_features test_df target_column_name := dropColumn_ok_eq h3
  rw [ho]
  refine ⟨?_, ?_, ?_, ?_, ?_, ?_⟩
  · simp only [onOk, h7, h9, attachTarget_length, hMlen, hnf]
  · simp only [onOk, h8, h9, attachTarget_length, hNlen, hnf]
  · simp only [onOk, h7, attachTarget_getLast, getNumColumn_ok_eq h2]
  · simp only [onOk, h8, attachTarget_getLast, getNumColumn_ok_eq h4]
  · simp only [onOk, h7, h9, hMblocks, hftr, attachTarget, getNumColumn_ok_eq h2,
      List.map_append, List.append_assoc]
  · simp only [onOk, h8, h9, hNblocks, hfte, attachTarget, getNumColumn_ok_eq h4,
      List.map_append, List.append_assoc]

/-- Witness for C3 at concrete inputs whose test table observes a strict
subset of the training categorical levels. -/
theorem output_matrix_shape_witness :
    ((initiate_data_transformation (fun q => q) shapeTrain shapeTest).isOk = true)
    ∧ (onOk (fun o => o.train_arr.length)
          (initiate_data_transformation (fun q => q) shapeTrain shapeTest)
        = onOk (fun o => numerical_columns.length + sumLevels o.saved_preprocessor + 1)
          (initiate_data_transformation (fun q => q) shapeTrain shapeTest)
      ∧ onOk (fun o => o.test_arr.length)
          (initiate_data_transformation (fun q => q) shapeTrain shapeTest)
        = onOk (fun o => numerical_columns.length + sumLevels o.saved_preprocessor + 1)
          (initiate_data_transformation (fun q => q) shapeTrain shapeTest)
      ∧ onOk (fun o => o.train_arr.getLast?)
          (initiate_data_transformation (fun q => q) shapeTrain shapeTest)
        = some (some (numColOf shapeTrain target_column_name))
      ∧ onOk (fun o => o.test_arr.getLast?)
          (initiate_data_transformation (fun q => q) shapeTrain shapeTest)
        = some (some (numColOf shapeTest target_column_name))
      ∧ onOk (fun o => o.train_arr)
          (initiate_data_transformation (fun q => q) shapeTrain shapeTest)
        = onOk (fun o =>
            (o.saved_preprocessor.numFits.map (fun p =>
                num_pipeline_transform p.2
                  (numColOf (input_features shapeTrain target_column_name) p.1))).map
              (fun col => col.map some)
            ++ ((o.saved_preprocessor.catFits.map (fun p =>
                cat_pipeline_output p.2
                  (catColOf (input_features shapeTrain target_column_name) p.1))).flatten.map
              (fun col => col.map some)
            ++ [numColOf shapeTrain target_column_name]))
          (initiate_data_transformation (fun q => q) shapeTrain shapeTest)
      ∧ onOk (fun o => o.test_arr)
          (initiate_data_transformation (fun q => q) shapeTrain shapeTest)
        = onOk (fun o =>
            (o.saved_preprocessor.numFits.map (fun p =>
                num_pipeline_transform p.2
                  (numColOf (input_features shapeTest target_column_name) p.1))).map
              (fun col => col.map some)
            ++ ((o.saved_preprocessor.catFits.map (fun p =>
                cat_pipeline_output p.2
                  (catColOf (input_features shapeTest target_column_name) p.1))).flatten.map
              (fun col => col.map some)
            ++ [numColOf shapeTest target_column_name]))
          (initiate_data_transformation (fun q => q) shapeTrain shapeTest)) :=
  ⟨by decide, output_matrix_shape (fun q => q) shapeTrain shapeTest (by decide)⟩

theorem sum_map_div (l : List ℚ) (f : ℚ → ℚ) (s : ℚ) :
    (l.map (fun x => f x / s)).sum = (l.map f).sum / s := by
  induction l with
  | nil => simp
  | cons a l ih => simp [ih, add_div]

theorem sum_map_sub_const (l : List ℚ) (c : ℚ) :
    (l.map (fun x => x - c)).sum = l.sum - l.length * c := by
  induction l with
  | nil => simp
  | cons a l ih =>
    simp only [List.map, List.sum_cons, ih, List.length_cons]
    push_cast
    ring

theorem listMean_map_affine (l : List ℚ) (c s : ℚ) (hl : l ≠ []) :
    listMean (l.map fun x => (x - c) / s) = (listMean l - c) / s := by
  have hn : (l.length : ℚ) ≠ 0 :=
    Nat.cast_ne_zero.mpr (List.length_pos.mpr hl).ne'
  unfold listMean
  rw [List.length_map, sum_map_div l (fun x => x - c) s, sum_map_sub_const]
  field_simp
  ring

theorem listVar_map_affine (l : List ℚ) (c s : ℚ) (hl : l ≠ []) :
    listVar (l.map fun x => (x - c) / s) = listVar l / s ^ 2 := by
  unfold listVar
  rw [listMean_map_affine l c s hl, List.map_map, List.length_map]
  have hfun : ((fun y => (y - (listMean l - c) / s) ^ 2) ∘ fun x => (x - c) / s)
      = fun x => (x - listMean l) ^ 2 / s ^ 2 := by
    funext x
    simp only [Function.comp_apply, div_sub_div_same, div_pow,
      sub_sub_sub_cancel_right]
  rw [hfun, sum_map_div l (fun x => (x - listMean l) ^ 2) (s ^ 2), div_div, div_div,
    mul_comm]



/-- For a successful `fit_transform`, the `j`-th output column (for `j` below
the numeric count) is the numeric pipeline applied to the `j`-th listed
column, and the `j`-th stored fit is the one fitted on that column. -/
theorem fit_transform_num_column {sq : ℚ → ℚ} {df : DataFrame}
    {F : FittedPreprocessor} {M : List (List ℚ)} {j : Nat}
    (hFM : preprocessor_fit_transform sq df = .ok (F, M))
    (hj : j < numerical_columns.length) :
    M.getD j []
        = num_pipeline_transform
          (num_pipeline_fit sq (numColOf df (numerical_columns.getD j "")))
          (numColOf df (numerical_columns.getD j ""))
    ∧ (F.numFits.getD j ("", ⟨0, 0, 0, 0⟩)).2
        = num_pipeline_fit sq (numColOf df (numerical_columns.getD j "")) := by
  obtain ⟨hfit, htr⟩ := preprocessor_fit_transform_ok_parts hFM
  obtain ⟨hFn, hFc⟩ := preprocessor_fit_ok_structure hfit
  unfold preprocessor_transform at htr
  cases hnum : exceptMapM (fun p =>
      match getNumFeature df p.1 with
      | .error e => .error e
      | .ok v => .ok (num_pipeline_transform p.2 v)) F.numFits with
  | error e => rw [hnum] at htr; cases htr
  | ok numCols =>
    rw [hnum] at htr
    dsimp only at htr
    cases hcat : exceptMapM (fun p =>
        match getCatFeature df p.1 with
        | .error e => .error e
        | .ok v => cat_pipeline_transform p.2 v) F.catFits with
    | error e => rw [hcat] at htr; cases htr
    | ok catGroups =>
      rw [hcat] at htr
      cases htr
      have hnumEq : numCols = F.numFits.map
          (fun p => num_pipeline_transform p.2 (numColOf df p.1)) := by
        refine exceptMapM_ok_eq_map ?_ hnum
        intro p _ b hb
        cases hg : getNumFeature df p.1 with
        | error e => rw [hg] at hb; cases hb
        | ok v =>
          rw [hg] at hb
          cases hb
          rw [getNumFeature_ok_eq hg]
      have hlen : numCols.length = numerical_columns.length := by
        rw [hnumEq, hFn]
        simp
      constructor
      · rw [List.getD_append _ _ _ _ (by rw [hlen]; exact hj)]
        rw [hnumEq, hFn, List.map_map]
        rw [List.getD_eq_getElem?_getD, List.getElem?_map,
          List.getElem?_eq_getElem hj]
        simp [List.getElem?_eq_getElem hj]
      · rw [hFn]
        rw [List.getD_eq_getElem?_getD, List.getElem?_map,
          List.getElem?_eq_getElem hj]
        rw [List.getD_eq_getElem?_getD, List.getElem?_eq_getElem hj]
        simp

/-- C8 counterexample: a training table whose `writing_score` column is
constant.  `fit_transform` succeeds, yet the first transformed numeric column
has sample variance 0 — sample standard deviation 0, not 1 — because a
zero-variance column is scaled by the substituted unit factor and mapped to
all zeros.  The square-root model used here agrees with the real square root
on every value of this run (the variances 0 and 100). -/
theorem constant_column_not_unit_variance :
    ((preprocessor_fit_transform (fun q => if q = 100 then 10 else 0)
        ⟨[("gender", .cat [some "m", some "m"]),
          ("race_ethnicity", .cat [some "g", some "g"]),
          ("parental_level_of_education", .cat [some "c", some "c"]),
          ("lunch", .cat [some "s", some "s"]),
          ("test_preparation_course", .cat [some "n", some "n"]),
          ("reading_score", .num [some 60, some 80]),
          ("writing_score", .num [some 70, some 70])]⟩).isOk = true)
    ∧ listVar (outputColumn (preprocessor_fit_transform
        (fun q => if q = 100 then 10 else 0)
        ⟨[("gender", .cat [some "m", some "m"]),
          ("race_ethnicity", .cat [some "g", some "g"]),
          ("parental_level_of_education", .cat [some "c", some "c"]),
          ("lunch", .cat [some "s", some "s"]),
          ("test_preparation_course", .cat [some "n", some "n"]),
          ("reading_score", .num [some 60, some 80]),
          ("writing_score", .num [some 70, some 70])]⟩) 0) = 0 :=
  ⟨by decide, by decide⟩

/-- C8 (amended): fitting then immediately transforming a training table
yields a matrix with no missing values (the output columns are total rational
lists by construction — imputation fills every hole) in which every
transformed numeric column has sample mean exactly 0; and every transformed
numeric column whose fit-time variance is nonzero — witnessed by an exact,
nonzero square root — has population variance exactly 1, i.e. sample
standard deviation 1.  The counterexample shows the unit-deviation conjunct
fails as originally stated for a zero-variance column. -/
theorem transformed_numeric_columns_standardized (sq : ℚ → ℚ) (df : DataFrame) (j : Nat)
    (h : (preprocessor_fit_transform sq df).isOk = true)
    (hj : j < numerical_columns.length) :
    listMean (outputColumn (preprocessor_fit_transform sq df) j) = 0
    ∧ (sq (fittedNumVar (preprocessor_fit_transform sq df) j) ^ 2
          = fittedNumVar (preprocessor_fit_transform sq df) j →
        sq (fittedNumVar (preprocessor_fit_transform sq df) j) ≠ 0 →
        listVar (outputColumn (preprocessor_fit_transform sq df) j) = 1) := by
  obtain ⟨FM, hFM⟩ := isOk_exists h
  obtain ⟨F, M⟩ := FM
  obtain ⟨hcol, hfitj⟩ := fit_transform_num_column hFM hj
  have hvar : fittedNumVar (preprocessor_fit_transform sq df) j
      = listVar (imputeVals
          (imputeMedianFit (numColOf df (numerical_columns.getD j "")))
          (numColOf df (numerical_columns.getD j ""))) := by
    rw [hFM]
    unfold fittedNumVar
    dsimp only
    rw [hfitj]
    rfl
  have hout : outputColumn (preprocessor_fit_transform sq df) j
      = num_pipeline_transform
          (num_pipeline_fit sq (numColOf df (numerical_columns.getD j "")))
          (numColOf df (numerical_columns.getD j "")) := by
    rw [hFM]
    unfold outputColumn
    dsimp only
    rw [hcol]
  have hpipe : num_pipeline_transform
      (num_pipeline_fit sq (numColOf df (numerical_columns.getD j "")))
      (numColOf df (numerical_columns.getD j ""))
      = (imputeVals (imputeMedianFit (numColOf df (numerical_columns.getD j "")))
          (numColOf df (numerical_columns.getD j ""))).map
        (fun x => (x - listMean (imputeVals
            (imputeMedianFit (numColOf df (numerical_columns.getD j "")))
            (numColOf df (numerical_columns.getD j ""))))
          / handle_zeros_in_scale (sq (listVar (imputeVals
            (imputeMedianFit (numColOf df (numerical_columns.getD j "")))
            (numColOf df (numerical_columns.getD j "")))))) := rfl
  set imp := imputeVals
      (imputeMedianFit (numColOf df (numerical_columns.getD j "")))
      (numColOf df (numerical_columns.getD j "")) with himp
  constructor
  · by_cases hne : imp = []
    · rw [hout, hpipe, hne]
      simp [listMean]
    · rw [hout, hpipe,
        listMean_map_affine imp (listMean imp)
          (handle_zeros_in_scale (sq (listVar imp))) hne,
        sub_self, zero_div]
  · intro hsq hnz
    rw [hvar] at hsq hnz
    have hvarne : listVar imp ≠ 0 := by
      rw [← hsq]
      exact pow_ne_zero 2 hnz
    have himpne : imp ≠ [] := by
      intro he
      apply hvarne
      rw [he]
      simp [listVar]
    have hscale : handle_zeros_in_scale (sq (listVar imp)) = sq (listVar imp) := by
      rw [handle_zeros_in_scale, if_neg hnz]
    rw [hout, hpipe, hscale,
      listVar_map_affine imp (listMean imp) (sq (listVar imp)) himpne, hsq]
    exact div_self hvarne

/-- Witness for C8's amended theorem at a concrete input (the identity
square-root model is exact on the variances 0 and 1 this run produces), also
discharging the antecedents of the unit-variance conjunct there. -/
theorem standardized_witness :
    ((preprocessor_fit_transform (fun q => q) stdDF).isOk = true)
    ∧ (0 < numerical_columns.length)
    ∧ (listMean (outputColumn (preprocessor_fit_transform (fun q => q) stdDF) 0) = 0
      ∧ ((fun q : ℚ => q) (fittedNumVar (preprocessor_fit_transform (fun q => q) stdDF) 0) ^ 2
            = fittedNumVar (preprocessor_fit_transform (fun q => q) stdDF) 0 →
          (fun q : ℚ => q) (fittedNumVar (preprocessor_fit_transform (fun q => q) stdDF) 0) ≠ 0 →
          listVar (outputColumn (preprocessor_fit_transform (fun q => q) stdDF) 0) = 1))
    ∧ listVar (outputColumn (preprocessor_fit_transform (fun q => q) stdDF) 0) = 1 :=
  ⟨by decide, by decide,
   transformed_numeric_columns_standardized (fun q => q) stdDF 0 (by decide) (by decide),
   (transformed_numeric_columns_standardized (fun q => q) stdDF 0 (by decide) (by decide)).2
     (by decide) (by decide)⟩
